import Mathlib

set_option maxHeartbeats 1000000

/-!
Verification of the review-orchestration pipeline and the React UI of the
AI Code Reviewer repository.  The backend pipeline (DiffChunker, Redactor,
Aggregator, ReviewOrchestrator) is embedded from the specification; the
UI transitions are embedded from frontend/src/App.jsx.
-/

/-! ## Data model -/

/-- FileChange.status values, per the data model. -/
inductive FileStatus
  | added
  | modified
  | deleted
  | renamed
deriving DecidableEq

/-- A single changed file of a pull request, per the data model:
filename, status, additions, deletions, unified-diff patch text. -/
structure FileChange where
  filename : String
  status : FileStatus
  additions : Nat
  deletions : Nat
  patch : String
deriving DecidableEq

/-- FileGroup priorities, per the data model. -/
inductive Priority
  | critical
  | high
  | medium
  | low
deriving DecidableEq

/-! ## DiffChunker -/

/-- Prefix test on the character data of a string; structurally recursive so
that concrete instances evaluate by kernel reduction. -/
def strStartsWith (s pre : String) : Bool := pre.data.isPrefixOf s.data

/-- Suffix test on the character data of a string. -/
def strEndsWith (s post : String) : Bool := post.data.isSuffixOf s.data

/-- Modelled from the spec: the skip deny-list rule table (lock files,
minified or generated bundles, binary artifacts, vendor directories);
chunker.py is not part of the sources, only its contract is specified.
Suffix patterns of the deny-list. -/
def skipSuffixes : List String :=
  [".lock", ".min.js", ".min.css", ".png", ".jpg", ".gif", ".ico", ".zip", ".exe", ".map"]

/-- Modelled from the spec: directory-prefix patterns of the skip deny-list
(vendor directories and generated build output). -/
def skipPrefixes : List String :=
  ["vendor/", "node_modules/", "dist/", "build/"]

/-- Modelled from the spec: a file is excluded from review when its name
matches the deny-list. -/
def shouldSkip (f : FileChange) : Bool :=
  skipSuffixes.any (fun s => strEndsWith f.filename s)
    || skipPrefixes.any (fun s => strStartsWith f.filename s)

/-- Modelled from the spec: the priority heuristic of the DiffChunker —
docs are low, tests and configuration are medium, source files with a
non-trivial diff are critical, the rest high. -/
def priorityOf (f : FileChange) : Priority :=
  if strStartsWith f.filename "docs/" || strEndsWith f.filename ".md" then .low
  else if strStartsWith f.filename "test" || strStartsWith f.filename "tests/" then .medium
  else if strEndsWith f.filename ".json" || strEndsWith f.filename ".yml"
      || strEndsWith f.filename ".yaml" || strEndsWith f.filename ".toml" then .medium
  else if 30 ≤ f.additions + f.deletions then .critical
  else .high

/-- Modelled from the spec: the explicit marker appended to a patch that was
cut at the hard ceiling. -/
def truncationMarker : String := "\n... [truncated]"

/-- Modelled from the spec: a single file whose own patch exceeds the hard
ceiling is truncated there, with an explicit marker, never dropped. -/
def truncateFile (ceiling : Nat) (f : FileChange) : FileChange :=
  if ceiling < f.patch.length then
    { f with patch := (f.patch.take ceiling) ++ truncationMarker }
  else f

/-- Modelled from the spec: chunk packing visits the groups in priority
order, critical → high → medium → low. -/
def sortByPriority (l : List FileChange) : List FileChange :=
  l.filter (fun f => priorityOf f == Priority.critical)
    ++ l.filter (fun f => priorityOf f == Priority.high)
    ++ l.filter (fun f => priorityOf f == Priority.medium)
    ++ l.filter (fun f => priorityOf f == Priority.low)

/-- Modelled from the spec: greedy bin-packing of the priority-ordered files
into chunks — accumulate a running serialized-size estimate (characters as
token proxy) and close the current chunk when the next file would push it
over the budget.  `cur` is the open chunk (reversed) and `size` its running
size. -/
def packGo (budget ceiling : Nat) :
    List FileChange → List FileChange → Nat → List (List FileChange)
  | [], cur, _ => if cur = [] then [] else [cur.reverse]
  | f :: rest, cur, size =>
    let tf := truncateFile ceiling f
    let fsize := tf.patch.length
    if cur = [] then
      packGo budget ceiling rest [tf] fsize
    else if budget < size + fsize then
      cur.reverse :: packGo budget ceiling rest [tf] fsize
    else
      packGo budget ceiling rest (tf :: cur) (size + fsize)

/-- Output of DiffChunker.plan: advisory file groups, the packed chunks and
the names of the skipped files. -/
structure PlanResult where
  groups : List (Priority × Nat)
  chunks : List (List FileChange)
  skipped : List String
deriving DecidableEq

/-- Modelled from the spec: the advisory per-priority file groups. -/
def buildGroups (l : List FileChange) : List (Priority × Nat) :=
  [Priority.critical, Priority.high, Priority.medium, Priority.low].filterMap
    (fun p =>
      let k := (l.filter (fun f => priorityOf f == p)).length
      if k = 0 then none else some (p, k))

/-- Modelled from the spec: DiffChunker.plan — skip filter, priority
grouping, then greedy bin-packing of the remaining files. -/
def plan (files : List FileChange) (budget ceiling : Nat) : PlanResult :=
  let reviewable := files.filter (fun f => !shouldSkip f)
  { groups := buildGroups reviewable
    chunks := packGo budget ceiling (sortByPriority reviewable) [] 0
    skipped := (files.filter shouldSkip).map (fun f => f.filename) }

/-- The PRAnalysis dry-run projection of the data model. -/
structure PRAnalysis where
  total_files : Nat
  reviewable_files : Nat
  chunks_needed : Nat
  estimated_time : Nat
  skipped_files : List String
deriving DecidableEq

/-- Modelled from the spec: the analyze endpoint runs the same chunking
logic without invoking any provider; estimated_time is linear in the chunk
count. -/
def analyze (files : List FileChange) (budget ceiling : Nat) : PRAnalysis :=
  let p := plan files budget ceiling
  { total_files := files.length
    reviewable_files := (files.filter (fun f => !shouldSkip f)).length
    chunks_needed := p.chunks.length
    estimated_time := 30 * p.chunks.length
    skipped_files := p.skipped }

/-- All filenames occurring in the produced chunks, in order. -/
def chunkFilenames (p : PlanResult) : List String :=
  (p.chunks.map (fun c => c.map (fun f => f.filename))).flatten

/-! ## DiffChunker lemmas -/

theorem truncateFile_filename (ceiling : Nat) (f : FileChange) :
    (truncateFile ceiling f).filename = f.filename := by
  unfold truncateFile
  split <;> rfl

theorem packGo_flatten (budget ceiling : Nat) (rest : List FileChange) :
    ∀ (cur : List FileChange) (size : Nat),
      (packGo budget ceiling rest cur size).flatten
        = cur.reverse ++ rest.map (truncateFile ceiling) := by
  induction rest with
  | nil =>
    intro cur size
    simp only [packGo]
    split <;> simp_all
  | cons f rest ih =>
    intro cur size
    simp only [packGo]
    split
    · rw [ih]
      simp_all
    · split
      · simp [ih]
      · rw [ih]
        simp

theorem count_filter_neg {α : Type} [DecidableEq α] {p : α → Bool} {a : α}
    (h : p a = false) (l : List α) : (l.filter p).count a = 0 := by
  rw [List.count_eq_zero]
  intro hmem
  have hpa := List.of_mem_filter hmem
  rw [h] at hpa
  exact Bool.noConfusion hpa

theorem sortByPriority_perm (l : List FileChange) : (sortByPriority l).Perm l := by
  rw [List.perm_iff_count]
  intro a
  simp only [sortByPriority, List.count_append]
  rcases hpa : priorityOf a with _ | _ | _ | _
  · rw [List.count_filter (by simp [hpa]), count_filter_neg (by simp [hpa]),
      count_filter_neg (by simp [hpa]), count_filter_neg (by simp [hpa])]
    omega
  · rw [count_filter_neg (by simp [hpa]), List.count_filter (by simp [hpa]),
      count_filter_neg (by simp [hpa]), count_filter_neg (by simp [hpa])]
    omega
  · rw [count_filter_neg (by simp [hpa]), count_filter_neg (by simp [hpa]),
      List.count_filter (by simp [hpa]), count_filter_neg (by simp [hpa])]
    omega
  · rw [count_filter_neg (by simp [hpa]), count_filter_neg (by simp [hpa]),
      count_filter_neg (by simp [hpa]), List.count_filter (by simp [hpa])]
    omega

theorem plan_chunkFilenames (files : List FileChange) (budget ceiling : Nat) :
    chunkFilenames (plan files budget ceiling)
      = (sortByPriority (files.filter (fun f => !shouldSkip f))).map
          (fun f => f.filename) := by
  unfold chunkFilenames plan
  rw [← List.map_flatten, packGo_flatten]
  simp [List.map_map, Function.comp_def, truncateFile_filename]

theorem count_filename_split (files : List FileChange) (fn : String) :
    ((files.filter shouldSkip).map (fun f => f.filename)).count fn
      + ((files.filter (fun f => !shouldSkip f)).map (fun f => f.filename)).count fn
    = (files.map (fun f => f.filename)).count fn := by
  have hperm := (List.filter_append_perm shouldSkip files).map (fun f => f.filename)
  have := hperm.count_eq fn
  simpa [List.count_append] using this

/-- C1: for every input file list and chunking configuration (with distinct
filenames, as the data model requires), DiffChunker.plan partitions the
reviewable files: every non-skipped file appears in exactly one produced
chunk (counted once across all chunks) and not in `skipped`, while every
deny-listed file is reported in `skipped` and appears in no chunk. -/
theorem diffChunker_plan_partitions (files : List FileChange) (budget ceiling : Nat)
    (hnd : (files.map (fun f => f.filename)).Nodup) :
    ∀ f ∈ files,
      (shouldSkip f = true →
          f.filename ∈ (plan files budget ceiling).skipped
        ∧ f.filename ∉ chunkFilenames (plan files budget ceiling))
      ∧ (shouldSkip f = false →
          (chunkFilenames (plan files budget ceiling)).count f.filename = 1
        ∧ f.filename ∉ (plan files budget ceiling).skipped) := by
  intro f hf
  have htot : (files.map (fun g => g.filename)).count f.filename ≤ 1 :=
    List.nodup_iff_count_le_one.1 hnd f.filename
  have hsplit := count_filename_split files f.filename
  have hchunk : (chunkFilenames (plan files budget ceiling)).count f.filename
      = ((files.filter (fun g => !shouldSkip g)).map (fun g => g.filename)).count f.filename := by
    rw [plan_chunkFilenames]
    exact ((sortByPriority_perm _).map _).count_eq f.filename
  constructor
  · intro hskip
    have hmem : f.filename ∈ (files.filter shouldSkip).map (fun g => g.filename) :=
      List.mem_map.2 ⟨f, List.mem_filter.2 ⟨hf, hskip⟩, rfl⟩
    have h1 : 0 < ((files.filter shouldSkip).map (fun g => g.filename)).count f.filename :=
      List.count_pos_iff.2 hmem
    refine ⟨hmem, ?_⟩
    have hc0 : (chunkFilenames (plan files budget ceiling)).count f.filename = 0 := by
      rw [hchunk]
      omega
    exact List.count_eq_zero.1 hc0
  · intro hns
    have hmem : f.filename ∈ (files.filter (fun g => !shouldSkip g)).map (fun g => g.filename) :=
      List.mem_map.2 ⟨f, List.mem_filter.2 ⟨hf, by simp [hns]⟩, rfl⟩
    have h1 : 0 < ((files.filter (fun g => !shouldSkip g)).map (fun g => g.filename)).count f.filename :=
      List.count_pos_iff.2 hmem
    refine ⟨?_, ?_⟩
    · rw [hchunk]
      omega
    · have hc0 : ((files.filter shouldSkip).map (fun g => g.filename)).count f.filename = 0 := by
        omega
      exact List.count_eq_zero.1 hc0

/-- The three-file example of the spec: a lock file plus two Python files. -/
def fileLock : FileChange :=
  { filename := "a.lock", status := .modified, additions := 3, deletions := 0, patch := "@@ lock @@" }

def fileB : FileChange :=
  { filename := "b.py", status := .modified, additions := 120, deletions := 0, patch := "@@ b @@ plus lines" }

def fileC : FileChange :=
  { filename := "c.py", status := .added, additions := 5, deletions := 0, patch := "@@ c @@" }

def exampleFiles : List FileChange := [fileLock, fileB, fileC]

theorem diffChunker_plan_partitions_witness :
    ((chunkFilenames (plan exampleFiles 4000 8000)).count "b.py" = 1
      ∧ "b.py" ∉ (plan exampleFiles 4000 8000).skipped)
    ∧ ("a.lock" ∈ (plan exampleFiles 4000 8000).skipped
      ∧ "a.lock" ∉ chunkFilenames (plan exampleFiles 4000 8000)) :=
  ⟨(diffChunker_plan_partitions exampleFiles 4000 8000 (by decide) fileB (by decide)).2 (by decide),
    (diffChunker_plan_partitions exampleFiles 4000 8000 (by decide) fileLock (by decide)).1 (by decide)⟩

/-! ## Redactor -/

/-- Diff line kinds: the redactor is diff-aware and only scans added or
modified lines, never deleted lines. -/
inductive LineTag
  | added
  | removed
  | context
deriving DecidableEq

/-- One line of diff text, as a tag plus its whitespace-separated tokens
(tokenised so that replacement preserves the surrounding line structure). -/
structure DiffLine where
  tag : LineTag
  tokens : List String
deriving DecidableEq

/-- One redaction rule: a kind name plus the shape prefix that identifies a
secret-shaped token. -/
structure RedactionRule where
  kind : String
  marker : String
deriving DecidableEq

/-- Modelled from the spec: the ordered redaction rule set of security.py
(which is not part of the sources) — API-key shapes for major cloud and LLM
vendors, generic password/secret/token key-value pairs, PEM private-key
blocks, JWTs, database connection strings and RFC1918 private IPv4
addresses. -/
def redactionRules : List RedactionRule :=
  [ { kind := "openai_key", marker := "sk-" }
  , { kind := "github_token", marker := "ghp_" }
  , { kind := "aws_key", marker := "AKIA" }
  , { kind := "google_key", marker := "AIza" }
  , { kind := "password_kv", marker := "password=" }
  , { kind := "secret_kv", marker := "secret=" }
  , { kind := "token_kv", marker := "token=" }
  , { kind := "pem_block", marker := "-----BEGIN" }
  , { kind := "jwt", marker := "eyJ" }
  , { kind := "db_conn_postgres", marker := "postgres://" }
  , { kind := "db_conn_mysql", marker := "mysql://" }
  , { kind := "db_conn_mongo", marker := "mongodb://" }
  , { kind := "private_ip_10", marker := "10." }
  , { kind := "private_ip_192", marker := "192.168." }
  , { kind := "private_ip_172", marker := "172.16." } ]

/-- A token matches a rule when it has the rule's secret shape prefix. -/
def matchesRule (r : RedactionRule) (w : String) : Bool :=
  strStartsWith w r.marker

/-- A token is secret-shaped when any rule matches it. -/
def matchesAny (w : String) : Bool :=
  redactionRules.any (fun r => matchesRule r w)

/-- Modelled from the spec: the fixed-width placeholder each match is
replaced with; it preserves line structure and matches no rule. -/
def placeholder : String := "[REDACTED]"

/-- Replace a secret-shaped token by the placeholder. -/
def redactWord (w : String) : String :=
  if matchesAny w then placeholder else w

/-- Redact one diff line and report its match count: deleted lines are not
scanned, all the other lines have every secret-shaped token masked. -/
def redactLine (l : DiffLine) : DiffLine × Nat :=
  if l.tag = .removed then (l, 0)
  else ({ l with tokens := l.tokens.map redactWord }, l.tokens.countP matchesAny)

/-- The clean text produced by the Redactor. -/
def redactText (x : List DiffLine) : List DiffLine :=
  x.map (fun l => (redactLine l).1)

/-- The running secret counter produced by the Redactor, which flows into
`ReviewChunkResult.redactedSecretCount`. -/
def redactCount (x : List DiffLine) : Nat :=
  (x.map (fun l => (redactLine l).2)).sum

theorem matchesAny_placeholder : matchesAny placeholder = false := by decide

theorem redactWord_not_match (w : String) : matchesAny (redactWord w) = false := by
  unfold redactWord
  split
  · exact matchesAny_placeholder
  · simp_all

theorem redactWord_idem (w : String) : redactWord (redactWord w) = redactWord w := by
  have h := redactWord_not_match w
  conv => lhs; rw [redactWord]
  rw [h]
  simp

theorem redactLine_fst_idem (l : DiffLine) :
    (redactLine (redactLine l).1).1 = (redactLine l).1 := by
  by_cases h : l.tag = LineTag.removed
  · simp [redactLine, h]
  · simp [redactLine, h, List.map_map]
    exact fun a _ => redactWord_idem a

theorem redactLine_snd_zero (l : DiffLine) :
    (redactLine (redactLine l).1).2 = 0 := by
  by_cases h : l.tag = LineTag.removed
  · simp [redactLine, h]
  · simp [redactLine, h, List.countP_map]
    exact fun a _ => redactWord_not_match a

/-- C2: the Redactor is idempotent — redacting already-redacted text changes
nothing, and the second pass finds zero matches, because the fixed-width
placeholder matches no redaction rule. -/
theorem redactor_idempotent (x : List DiffLine) :
    redactText (redactText x) = redactText x ∧ redactCount (redactText x) = 0 := by
  constructor
  · unfold redactText
    rw [List.map_map]
    exact List.map_congr_left (fun l _ => redactLine_fst_idem l)
  · unfold redactCount redactText
    rw [List.map_map]
    refine List.sum_eq_zero (fun n hn => ?_)
    rcases List.mem_map.1 hn with ⟨l, _, rfl⟩
    exact redactLine_snd_zero l

/-! ## Aggregator -/

/-- A review issue, per the data model (shared between the backend results
and the UI rendering). -/
structure ReviewIssue where
  severity : String
  category : String
  file : String
  line : Option Nat
  description : String
  suggestion : Option String
deriving DecidableEq

/-- Output of one provider call for one chunk, per the data model, together
with the reviewed-line count used as the score weight. -/
structure ReviewChunkResult where
  issues : List ReviewIssue
  highlights : List String
  suggestions : List String
  partialScore : Option Nat
  reviewedLines : Nat
  redactedSecretCount : Nat
deriving DecidableEq

/-- The final review artifact, per the data model; `score` is omitted
(`none`) exactly when there was nothing to review. -/
structure ReviewResultData where
  score : Option Nat
  summary : String
  issues : List ReviewIssue
  highlights : List String
  suggestions : List String
  filtered_secrets_count : Nat
  failed_chunks : Nat
deriving DecidableEq

/-- Clamp a combined score to the interval [0, 100] (the lower bound is
automatic over Nat). -/
def clampScore (n : Nat) : Nat := min n 100

/-- Round the ratio p / q to the nearest integer (half rounds up);
0 when the weight total is 0. -/
def roundNearestDiv (p q : Nat) : Nat :=
  if q = 0 then 0 else (2 * p + q) / (2 * q)

/-- One step of the aggregator's single pass over the chunk results:
accumulate the score-weight products, the weight total, and whether any
chunk reported a partialScore at all. -/
def scoreStep (acc : Nat × Nat × Bool) (r : ReviewChunkResult) : Nat × Nat × Bool :=
  match r.partialScore with
  | some s => (acc.1 + s * r.reviewedLines, acc.2.1 + r.reviewedLines, true)
  | none => acc

/-- Modelled from the spec: the Aggregator's score combination, computed in
one pass — size-weighted average of the reported partialScores, rounded and
clamped, with the neutral midpoint 50 when no chunk reported a score. -/
def aggregateScore (rs : List ReviewChunkResult) : Nat :=
  let acc := rs.foldl scoreStep (0, 0, false)
  if acc.2.2 then clampScore (roundNearestDiv acc.1 acc.2.1) else 50

/-- The (partialScore, reviewed-line weight) pairs of the chunks that
reported a score. -/
def scoredPairs (rs : List ReviewChunkResult) : List (Nat × Nat) :=
  rs.filterMap (fun r => r.partialScore.map (fun s => (s, r.reviewedLines)))

/-- Modelled from the spec (score-combination wording, for comparison with
the one-pass aggregator): if any chunk reports a partialScore, the final
score is the average of the partialScores weighted by reviewed-line count,
rounded to the nearest integer and clamped to [0,100]; otherwise the
neutral midpoint 50. -/
def aggregateScoreSpec (rs : List ReviewChunkResult) : Nat :=
  let scored := scoredPairs rs
  if scored = [] then 50
  else
    clampScore (roundNearestDiv
      ((scored.map (fun p => p.1 * p.2)).sum)
      ((scored.map (fun p => p.2)).sum))

theorem foldl_scoreStep (rs : List ReviewChunkResult) :
    ∀ (a b : Nat) (fl : Bool),
      rs.foldl scoreStep (a, b, fl)
        = (a + ((scoredPairs rs).map (fun p => p.1 * p.2)).sum,
            b + ((scoredPairs rs).map (fun p => p.2)).sum,
            (fl || !(scoredPairs rs).isEmpty)) := by
  induction rs with
  | nil =>
    intro a b fl
    simp [scoredPairs]
  | cons r rs ih =>
    intro a b fl
    rcases h : r.partialScore with _ | s
    · simp [List.foldl_cons, scoreStep, h, ih, scoredPairs, List.filterMap_cons]
    · simp [List.foldl_cons, scoreStep, h, ih, scoredPairs, List.filterMap_cons,
        Nat.add_assoc]

theorem aggregateScore_eq_closed (rs : List ReviewChunkResult) :
    aggregateScore rs = aggregateScoreSpec rs := by
  unfold aggregateScore aggregateScoreSpec
  rw [foldl_scoreStep]
  by_cases h : scoredPairs rs = []
  · simp [h]
  · simp [h, List.isEmpty_iff]

/-- C5: the aggregate score is invariant under reordering of the chunk
results — the size-weighted average is commutative in its inputs. -/
theorem aggregate_score_perm_invariant (rs₁ rs₂ : List ReviewChunkResult)
    (h : rs₁.Perm rs₂) : aggregateScore rs₁ = aggregateScore rs₂ := by
  rw [aggregateScore_eq_closed, aggregateScore_eq_closed]
  have hp : (scoredPairs rs₁).Perm (scoredPairs rs₂) := h.filterMap _
  have hs1 : ((scoredPairs rs₁).map (fun p => p.1 * p.2)).sum
      = ((scoredPairs rs₂).map (fun p => p.1 * p.2)).sum := (hp.map _).sum_eq
  have hs2 : ((scoredPairs rs₁).map (fun p => p.2)).sum
      = ((scoredPairs rs₂).map (fun p => p.2)).sum := (hp.map _).sum_eq
  unfold aggregateScoreSpec
  by_cases h0 : scoredPairs rs₁ = []
  · have h0' : scoredPairs rs₂ = [] := (h0 ▸ hp.symm).eq_nil
    simp [h0, h0']
  · have h0' : scoredPairs rs₂ ≠ [] := by
      intro hnil
      have hn : (scoredPairs rs₁).Perm [] := hnil ▸ hp
      exact h0 hn.eq_nil
    simp [h0, h0', hs1, hs2]

/-- Two concrete chunk results used by the aggregator witnesses. -/
def crA : ReviewChunkResult :=
  { issues := [{ severity := "major", category := "bug", file := "b.py", line := some 10,
                  description := "off by one", suggestion := some "fix bound" }]
    highlights := ["clear naming"], suggestions := ["add tests"]
    partialScore := some 80, reviewedLines := 100, redactedSecretCount := 1 }

def crB : ReviewChunkResult :=
  { issues := [{ severity := "minor", category := "style", file := "c.py", line := none,
                  description := "long line", suggestion := none }]
    highlights := [], suggestions := []
    partialScore := some 60, reviewedLines := 50, redactedSecretCount := 0 }

def crNoScore : ReviewChunkResult :=
  { issues := [], highlights := [], suggestions := []
    partialScore := none, reviewedLines := 20, redactedSecretCount := 0 }

theorem aggregate_score_perm_invariant_witness :
    aggregateScore [crB, crA] = aggregateScore [crA, crB] :=
  aggregate_score_perm_invariant [crB, crA] [crA, crB] (List.Perm.swap crA crB [])

/-- C6: if at least one chunk reports a partialScore, the aggregate score is
the reviewed-line-weighted average of the reported partialScores, rounded to
the nearest integer and clamped to [0,100]; with no reported score it is the
neutral midpoint 50. -/
theorem aggregate_score_combination (rs : List ReviewChunkResult) :
    ((∃ r ∈ rs, r.partialScore.isSome) →
      aggregateScore rs
        = clampScore (roundNearestDiv
            (((scoredPairs rs).map (fun p => p.1 * p.2)).sum)
            (((scoredPairs rs).map (fun p => p.2)).sum)))
    ∧ ((∀ r ∈ rs, r.partialScore = none) → aggregateScore rs = 50) := by
  constructor
  · rintro ⟨r, hr, hsome⟩
    have hne : scoredPairs rs ≠ [] := by
      intro h0
      have hnone := List.filterMap_eq_nil_iff.1 h0 r hr
      rcases hs : r.partialScore with _ | s
      · rw [hs] at hsome
        simp at hsome
      · rw [hs] at hnone
        simp at hnone
    rw [aggregateScore_eq_closed]
    unfold aggregateScoreSpec
    simp [hne]
  · intro hall
    have h0 : scoredPairs rs = [] :=
      List.filterMap_eq_nil_iff.2 (fun r hr => by simp [hall r hr])
    rw [aggregateScore_eq_closed]
    unfold aggregateScoreSpec
    simp [h0]

theorem aggregate_score_combination_witness :
    (aggregateScore [crA, crB]
      = clampScore (roundNearestDiv
          (((scoredPairs [crA, crB]).map (fun p => p.1 * p.2)).sum)
          (((scoredPairs [crA, crB]).map (fun p => p.2)).sum)))
    ∧ aggregateScore [crNoScore] = 50 :=
  ⟨(aggregate_score_combination [crA, crB]).1 ⟨crA, by decide, by decide⟩,
    (aggregate_score_combination [crNoScore]).2 (by decide)⟩

/-! ## ReviewOrchestrator -/

/-- The fatal overall-failure error of the error taxonomy: every chunk's
provider call failed. -/
inductive PipelineError
  | pipelineExhaustion
deriving DecidableEq

/-- Modelled from the spec: the empty result returned when planning yields
zero chunks — score omitted, nothing reviewed, no failure. -/
def emptyResult : ReviewResultData :=
  { score := none, summary := "", issues := [], highlights := [], suggestions := []
    filtered_secrets_count := 0, failed_chunks := 0 }

/-- Modelled from the spec: the Aggregator merges the successful chunk
results — issues, highlights and suggestions concatenated in chunk order,
secrets counts summed, score combined, failed-chunk count attached.
(The deterministic summary synthesis is not observed by any claim and is
left empty.) -/
def buildResult (succ : List ReviewChunkResult) (failed : Nat) : ReviewResultData :=
  { score := some (aggregateScore succ)
    summary := ""
    issues := (succ.map (fun r => r.issues)).flatten
    highlights := (succ.map (fun r => r.highlights)).flatten
    suggestions := (succ.map (fun r => r.suggestions)).flatten
    filtered_secrets_count := (succ.map (fun r => r.redactedSecretCount)).sum
    failed_chunks := failed }

/-- Modelled from the spec: the orchestrator's per-request run over its
planned chunks, abstracting one provider call as a function from a chunk to
an optional chunk result (`none` is a failed call).  Returns the outcome
together with the number of provider calls made: zero chunks short-circuit
to the empty result with no call; otherwise every chunk is attempted, a
run where every call failed is a PipelineExhaustionError, and any success
yields a degraded result carrying the failed-chunk count. -/
def orchestrate (chunks : List (List FileChange))
    (call : List FileChange → Option ReviewChunkResult) :
    Except PipelineError ReviewResultData × Nat :=
  if chunks = [] then (Except.ok emptyResult, 0)
  else
    let outcomes := chunks.map call
    let succ := outcomes.filterMap id
    if succ = [] then (Except.error PipelineError.pipelineExhaustion, chunks.length)
    else (Except.ok (buildResult succ (outcomes.countP (fun o => o.isNone))), chunks.length)

/-- C3: with zero reviewable files the analysis reports zero chunks, and a
review invocation short-circuits to the empty "nothing to review" result —
an ok outcome, not an error — after zero provider calls. -/
theorem zero_reviewable_short_circuit (files : List FileChange) (budget ceiling : Nat)
    (call : List FileChange → Option ReviewChunkResult)
    (h : files.filter (fun f => !shouldSkip f) = []) :
    (analyze files budget ceiling).chunks_needed = 0
    ∧ orchestrate (plan files budget ceiling).chunks call = (Except.ok emptyResult, 0) := by
  have hplan : (plan files budget ceiling).chunks = [] := by
    show packGo budget ceiling (sortByPriority (files.filter (fun f => !shouldSkip f))) [] 0 = []
    rw [h]
    rfl
  constructor
  · show (plan files budget ceiling).chunks.length = 0
    rw [hplan]
    rfl
  · unfold orchestrate
    rw [hplan]
    simp

/-- A PR consisting only of deny-listed files, for the C3 witness. -/
def onlySkippedFiles : List FileChange :=
  [ { filename := "a.lock", status := .modified, additions := 3, deletions := 0, patch := "@@ lock @@" }
  , { filename := "app.min.js", status := .modified, additions := 1, deletions := 1, patch := "@@ min @@" } ]

theorem zero_reviewable_short_circuit_witness :
    (analyze onlySkippedFiles 4000 8000).chunks_needed = 0
    ∧ orchestrate (plan onlySkippedFiles 4000 8000).chunks (fun _ => some crA)
        = (Except.ok emptyResult, 0) :=
  zero_reviewable_short_circuit onlySkippedFiles 4000 8000 (fun _ => some crA) (by decide)

/-- C4: over a nonempty chunk plan, if every chunk's provider call fails the
request fails with PipelineExhaustionError; if any chunk succeeds, the
request returns a degraded ok result whose issues are the concatenation of
the successful chunks' issues and whose failed-chunk count is the number of
failed calls. -/
theorem partial_failure_policy (chunks : List (List FileChange))
    (call : List FileChange → Option ReviewChunkResult) (hne : chunks ≠ []) :
    ((∀ c ∈ chunks, call c = none) →
      (orchestrate chunks call).1 = Except.error PipelineError.pipelineExhaustion)
    ∧ (∀ c ∈ chunks, (call c).isSome →
        ∃ res, (orchestrate chunks call).1 = Except.ok res
          ∧ res.failed_chunks = (chunks.map call).countP (fun o => o.isNone)
          ∧ res.issues
              = (((chunks.map call).filterMap id).map (fun r => r.issues)).flatten) := by
  constructor
  · intro hall
    have hs : (chunks.map call).filterMap id = [] := by
      refine List.filterMap_eq_nil_iff.2 (fun o ho => ?_)
      rcases List.mem_map.1 ho with ⟨c, hc, rfl⟩
      simpa using hall c hc
    unfold orchestrate
    simp [hne, hs]
  · intro c hc hsome
    have hs : (chunks.map call).filterMap id ≠ [] := by
      intro h0
      have hnone := List.filterMap_eq_nil_iff.1 h0 (call c) (List.mem_map.2 ⟨c, hc, rfl⟩)
      simp at hnone
      rw [hnone] at hsome
      simp at hsome
    unfold orchestrate
    simp only [if_neg hne]
    rw [if_neg hs]
    exact ⟨_, rfl, rfl, rfl⟩

/-- Concrete three-chunk run with one failing provider call, for the C4
witness. -/
def chunk1 : List FileChange := [fileB]

def chunk2 : List FileChange := [fileC]

def chunk3 : List FileChange := [fileLock]

def exChunks : List (List FileChange) := [chunk1, chunk2, chunk3]

def exCall (c : List FileChange) : Option ReviewChunkResult :=
  if c = chunk2 then none else if c = chunk1 then some crA else some crB

theorem partial_failure_policy_witness :
    ((orchestrate [chunk1] (fun _ => none)).1
        = Except.error PipelineError.pipelineExhaustion)
    ∧ ∃ res, (orchestrate exChunks exCall).1 = Except.ok res
        ∧ res.failed_chunks = 1
        ∧ res.issues = crA.issues ++ crB.issues := by
  constructor
  · exact (partial_failure_policy [chunk1] (fun _ => none) (by decide)).1
      (fun c hc => rfl)
  · obtain ⟨res, h1, h2, h3⟩ :=
      (partial_failure_policy exChunks exCall (by decide)).2 chunk1 (by decide) (by decide)
    refine ⟨res, h1, ?_, ?_⟩
    · rw [h2]
      decide
    · rw [h3]
      decide

/-! ## Frontend (embedded from frontend/src/App.jsx) -/

/-- A repository entry as listed by the UI (App.jsx RepoList). -/
structure Repo where
  full_name : String
  description : String
  isPrivate : Bool
deriving DecidableEq

/-- A pull-request summary as listed by the UI (App.jsx PRList). -/
structure PRSummary where
  number : Nat
  title : String
  author : String
  author_avatar : String
  head_ref : String
  base_ref : String
deriving DecidableEq

/-- The review meta object attached to a review response (App.jsx). -/
structure ReviewMeta where
  chunks_count : Nat
  context_enhanced : Bool
  security_filtered : Bool
  skipped_files_count : Nat
deriving DecidableEq

/-- The UI configuration state (App.jsx `config` useState). -/
structure UIConfig where
  githubToken : String
  openaiKey : String
  openaiBaseUrl : String
  provider : String
  model : String
  ollamaBaseUrl : String
  enableSecurityFilter : Bool
  enableContextEnhancement : Bool
deriving DecidableEq

/-- The initial config state of App (App.jsx lines 703-712): DeepSeek is the
default provider. -/
def initialConfig : UIConfig :=
  { githubToken := "", openaiKey := "", openaiBaseUrl := ""
    provider := "deepseek", model := "deepseek-chat"
    ollamaBaseUrl := "http://localhost:11434"
    enableSecurityFilter := true, enableContextEnhancement := true }

/-- The App component state (App.jsx useState hooks relevant to the review
flow). -/
structure AppState where
  config : UIConfig
  user : Option String
  repos : List Repo
  selectedRepo : Option Repo
  pulls : List PRSummary
  selectedPR : Option PRSummary
  prAnalysis : Option PRAnalysis
  review : Option ReviewResultData
  reviewMeta : Option ReviewMeta
  isReviewing : Bool
  loadingPulls : Bool
  loadingAnalysis : Bool
  error : Option String
deriving DecidableEq

/-- The JSON body api.performReview posts to the backend /review endpoint
(App.jsx lines 66-87); empty base URLs are sent as null. -/
structure ReviewRequestBody where
  owner : String
  repo : String
  pull_number : Nat
  openai_api_key : String
  openai_base_url : Option String
  enable_security_filter : Bool
  enable_context_enhancement : Bool
  model : String
  provider : String
  ollama_base_url : Option String
deriving DecidableEq

/-- Builds the /review request body from the current config
(App.jsx api.performReview). -/
def mkReviewRequest (owner repoName : String) (pullNumber : Nat) (c : UIConfig) :
    ReviewRequestBody :=
  { owner := owner
    repo := repoName
    pull_number := pullNumber
    openai_api_key := c.openaiKey
    openai_base_url := if c.openaiBaseUrl = "" then none else some c.openaiBaseUrl
    enable_security_filter := c.enableSecurityFilter
    enable_context_enhancement := c.enableContextEnhancement
    model := c.model
    provider := c.provider
    ollama_base_url := if c.ollamaBaseUrl = "" then none else some c.ollamaBaseUrl }

/-- Embeds handleSelectRepo (App.jsx lines 753-761): the synchronous state
updates performed before the pull-request fetch. -/
def handleSelectRepo (s : AppState) (repo : Repo) : AppState :=
  { s with selectedRepo := some repo, selectedPR := none, review := none
           reviewMeta := none, prAnalysis := none, pulls := []
           loadingPulls := true, error := none }

/-- Embeds handleSelectPR (App.jsx lines 775-780): the synchronous state
updates performed before the analyze fetch. -/
def handleSelectPR (s : AppState) (pr : PRSummary) : AppState :=
  { s with selectedPR := some pr, review := none, reviewMeta := none
           prAnalysis := none, loadingAnalysis := true }

/-- The missing-key error message of handleReview (App.jsx line 801). -/
def keyErrorMessage (provider : String) : String :=
  if provider = "deepseek" then "请配置DeepSeek API Key" else "请配置OpenAI API Key"

/-- Embeds handleReview (App.jsx lines 794-831) up to the provider call: the
guards, the synchronous state reset, and the /review request it issues
(`none` when it returns without calling the backend). -/
def handleReview (s : AppState) : AppState × Option ReviewRequestBody :=
  match s.selectedRepo, s.selectedPR with
  | some repo, some pr =>
    if (s.config.provider == "openai" || s.config.provider == "deepseek")
        && s.config.openaiKey == "" then
      ({ s with error := some (keyErrorMessage s.config.provider) }, none)
    else
      let parts := repo.full_name.splitOn "/"
      ({ s with isReviewing := true, error := none, review := none, reviewMeta := none },
        some (mkReviewRequest (parts.headD "") ((parts.drop 1).headD "")
          pr.number s.config))
  | _, _ => ({ s with error := some "请先选择PR" }, none)

/-- The disabled condition of the review button (App.jsx line 917). -/
def reviewButtonDisabled (isReviewing : Bool) (c : UIConfig) : Bool :=
  isReviewing
    || ((c.provider == "openai" || c.provider == "deepseek") && c.openaiKey == "")

/-- C7: with provider ollama, no API key is required — with a repository and
PR selected, handleReview issues the backend /review call and the button is
enabled even with an empty key; with provider openai or deepseek and an
empty API key, the button is disabled and handleReview sets an error and
returns without issuing any backend call. -/
theorem provider_key_preconditions (s : AppState) :
    (s.config.provider = "ollama" → s.selectedRepo.isSome → s.selectedPR.isSome →
      ((handleReview s).2.isSome ∧ reviewButtonDisabled false s.config = false))
    ∧ ((s.config.provider = "openai" ∨ s.config.provider = "deepseek") →
        s.config.openaiKey = "" →
        (reviewButtonDisabled false s.config = true
          ∧ (handleReview s).2 = none
          ∧ (handleReview s).1.error.isSome)) := by
  constructor
  · intro hp hr hpr
    rcases hrepo : s.selectedRepo with _ | repo
    · rw [hrepo] at hr
      simp at hr
    rcases hprr : s.selectedPR with _ | pr
    · rw [hprr] at hpr
      simp at hpr
    constructor
    · unfold handleReview
      rw [hrepo, hprr]
      simp [hp]
    · unfold reviewButtonDisabled
      simp [hp]
  · intro hp hk
    have hcond : ((s.config.provider == "openai" || s.config.provider == "deepseek")
        && s.config.openaiKey == "") = true := by
      rcases hp with hp | hp <;> simp [hp, hk]
    refine ⟨?_, ?_, ?_⟩
    · unfold reviewButtonDisabled
      simp [hcond]
    · unfold handleReview
      rcases s.selectedRepo with _ | repo
      · simp
      rcases s.selectedPR with _ | pr
      · simp
      simp [hcond]
    · unfold handleReview
      rcases s.selectedRepo with _ | repo
      · simp
      rcases s.selectedPR with _ | pr
      · simp
      simp [hcond]

/-- Concrete repository and PR for the frontend witnesses. -/
def demoRepo : Repo :=
  { full_name := "wenttt/CodeReviewAI", description := "demo", isPrivate := false }

def demoPR : PRSummary :=
  { number := 7, title := "Add chunker", author := "dev"
    author_avatar := "", head_ref := "feature", base_ref := "main" }

/-- A state with provider ollama, an empty key and a selected PR. -/
def stateOllama : AppState :=
  { config := { initialConfig with provider := "ollama", model := "codellama" }
    user := some "dev", repos := [demoRepo], selectedRepo := some demoRepo
    pulls := [demoPR], selectedPR := some demoPR, prAnalysis := none
    review := none, reviewMeta := none, isReviewing := false
    loadingPulls := false, loadingAnalysis := false, error := none }

/-- The same state with provider openai and an empty key. -/
def stateOpenai : AppState :=
  { stateOllama with config := { initialConfig with provider := "openai", model := "gpt-4o" } }

theorem provider_key_preconditions_witness :
    (((handleReview stateOllama).2.isSome
        ∧ reviewButtonDisabled false stateOllama.config = false))
    ∧ (reviewButtonDisabled false stateOpenai.config = true
        ∧ (handleReview stateOpenai).2 = none
        ∧ (handleReview stateOpenai).1.error.isSome) :=
  ⟨(provider_key_preconditions stateOllama).1 rfl (by decide) (by decide),
    (provider_key_preconditions stateOpenai).2 (Or.inl rfl) rfl⟩

/-- The setConfig interactions offered by the ConfigPanel
(App.jsx lines 98-357): the token, key, URL and model inputs, the two
advanced checkboxes, and the three provider-selection buttons. -/
inductive ConfigEvent
  | setGithubToken (v : String)
  | selectDeepseek
  | selectOpenai
  | selectOllama
  | setOpenaiKey (v : String)
  | setModel (v : String)
  | setOpenaiBaseUrl (v : String)
  | setOllamaBaseUrl (v : String)
  | setSecurityFilter (b : Bool)
  | setContextEnhancement (b : Bool)
deriving DecidableEq

/-- Applies one ConfigPanel interaction to the config state; the provider
buttons also reset the model (App.jsx lines 131, 142, 153). -/
def applyEvent (c : UIConfig) : ConfigEvent → UIConfig
  | .setGithubToken v => { c with githubToken := v }
  | .selectDeepseek => { c with provider := "deepseek", model := "deepseek-chat" }
  | .selectOpenai => { c with provider := "openai", model := "gpt-4o" }
  | .selectOllama => { c with provider := "ollama", model := "codellama" }
  | .setOpenaiKey v => { c with openaiKey := v }
  | .setModel v => { c with model := v }
  | .setOpenaiBaseUrl v => { c with openaiBaseUrl := v }
  | .setOllamaBaseUrl v => { c with ollamaBaseUrl := v }
  | .setSecurityFilter b => { c with enableSecurityFilter := b }
  | .setContextEnhancement b => { c with enableContextEnhancement := b }

/-- A config reachable through the ConfigPanel from the initial state. -/
def uiReachableConfig (events : List ConfigEvent) : UIConfig :=
  events.foldl applyEvent initialConfig

/-- The provider values selectable through the ConfigPanel buttons. -/
def uiSelectableProviders : List String := ["deepseek", "openai", "ollama"]

/-- Modelled from the spec: the provider values the ReviewOptions
configuration recognizes. -/
def recognizedProviders : List String :=
  ["openai", "anthropic", "gemini", "deepseek", "ollama", "custom"]

theorem applyEvent_provider_mem (c : UIConfig) (e : ConfigEvent)
    (h : c.provider ∈ uiSelectableProviders) :
    (applyEvent c e).provider ∈ uiSelectableProviders := by
  cases e <;> simp [applyEvent, uiSelectableProviders] <;>
    simpa [uiSelectableProviders] using h

theorem foldl_applyEvent_provider_mem (events : List ConfigEvent) :
    ∀ c : UIConfig, c.provider ∈ uiSelectableProviders →
      (events.foldl applyEvent c).provider ∈ uiSelectableProviders := by
  induction events with
  | nil => exact fun c h => h
  | cons e events ih =>
    intro c h
    exact ih (applyEvent c e) (applyEvent_provider_mem c e h)

/-- C8: every config constructible through the UI's provider selection
carries a provider from the recognized set {openai, anthropic, gemini,
deepseek, ollama, custom}, and the /review request performReview builds
from it carries exactly that provider together with the model, API key,
base URL and the two feature booleans of the config. -/
theorem ui_config_provider_recognized (events : List ConfigEvent)
    (owner repoName : String) (pullNumber : Nat) :
    (mkReviewRequest owner repoName pullNumber (uiReachableConfig events)).provider
        ∈ recognizedProviders
    ∧ (mkReviewRequest owner repoName pullNumber (uiReachableConfig events)).provider
        = (uiReachableConfig events).provider
    ∧ (mkReviewRequest owner repoName pullNumber (uiReachableConfig events)).model
        = (uiReachableConfig events).model
    ∧ (mkReviewRequest owner repoName pullNumber (uiReachableConfig events)).openai_api_key
        = (uiReachableConfig events).openaiKey
    ∧ (mkReviewRequest owner repoName pullNumber (uiReachableConfig events)).enable_security_filter
        = (uiReachableConfig events).enableSecurityFilter
    ∧ (mkReviewRequest owner repoName pullNumber (uiReachableConfig events)).enable_context_enhancement
        = (uiReachableConfig events).enableContextEnhancement := by
  refine ⟨?_, rfl, rfl, rfl, rfl, rfl⟩
  have hmem : (uiReachableConfig events).provider ∈ uiSelectableProviders :=
    foldl_applyEvent_provider_mem events initialConfig (by decide)
  show (uiReachableConfig events).provider ∈ recognizedProviders
  simp [uiSelectableProviders] at hmem
  rcases hmem with h | h | h <;> simp [recognizedProviders, h]

/-- Severity styling entries of the ReviewResult component
(App.jsx lines 542-547). -/
structure SeverityStyle where
  color : String
  icon : String
  label : String
deriving DecidableEq

/-- The info severity style (App.jsx line 546), also the fallback. -/
def infoStyle : SeverityStyle :=
  { color := "bg-blue-100 text-blue-800 border-blue-300", icon := "🔵", label := "提示" }

/-- Embeds severityConfig of the ReviewResult component (App.jsx lines
542-547): the four known severity keys. -/
def severityConfig (s : String) : Option SeverityStyle :=
  if s = "critical" then
    some { color := "bg-red-100 text-red-800 border-red-300", icon := "🔴", label := "严重" }
  else if s = "major" then
    some { color := "bg-orange-100 text-orange-800 border-orange-300", icon := "🟠", label := "重要" }
  else if s = "minor" then
    some { color := "bg-yellow-100 text-yellow-800 border-yellow-300", icon := "🟡", label := "轻微" }
  else if s = "info" then some infoStyle
  else none

/-- Embeds categoryLabels of the ReviewResult component (App.jsx lines
549-556): the six known category keys. -/
def categoryLabels (c : String) : Option String :=
  if c = "bug" then some "潜在Bug"
  else if c = "security" then some "安全问题"
  else if c = "performance" then some "性能问题"
  else if c = "style" then some "代码风格"
  else if c = "maintainability" then some "可维护性"
  else if c = "best_practice" then some "最佳实践"
  else none

/-- Embeds the issue-row rendering of the ReviewResult component (App.jsx
lines 635-648): the severity style is looked up with fallback to the info
style, and the category label falls back to the raw category string. -/
def renderIssue (issue : ReviewIssue) : SeverityStyle × String :=
  ((severityConfig issue.severity).getD infoStyle,
    (categoryLabels issue.category).getD issue.category)

/-- C9: issue rendering is total over issue values, with each fallback
independent of the other field — every issue with an unknown severity falls
back to the info styling (whatever its category), and every issue with an
unknown category renders the raw category string (whatever its severity),
so no issue value can make the result view fail. -/
theorem render_issue_total_fallback (issue : ReviewIssue) :
    (issue.severity ∉ (["critical", "major", "minor", "info"] : List String) →
      (renderIssue issue).1 = infoStyle)
    ∧ (issue.category ∉ (["bug", "security", "performance", "style",
          "maintainability", "best_practice"] : List String) →
      (renderIssue issue).2 = issue.category) := by
  constructor
  · intro h1
    simp only [List.mem_cons, List.not_mem_nil, or_false, not_or] at h1
    have hs : severityConfig issue.severity = none := by
      unfold severityConfig
      simp [h1.1, h1.2.1, h1.2.2.1, h1.2.2.2]
    unfold renderIssue
    rw [hs]
    rfl
  · intro h2
    simp only [List.mem_cons, List.not_mem_nil, or_false, not_or] at h2
    have hc : categoryLabels issue.category = none := by
      unfold categoryLabels
      simp [h2.1, h2.2.1, h2.2.2.1, h2.2.2.2.1, h2.2.2.2.2.1, h2.2.2.2.2.2]
    unfold renderIssue
    rw [hc]
    rfl

/-- An issue with an unknown severity but a known category. -/
def oddSeverityIssue : ReviewIssue :=
  { severity := "blocker", category := "bug", file := "b.py", line := none
    description := "weird severity", suggestion := none }

/-- An issue with a known severity but an unknown category. -/
def oddCategoryIssue : ReviewIssue :=
  { severity := "minor", category := "docs", file := "c.py", line := some 3
    description := "weird category", suggestion := none }

theorem render_issue_total_fallback_witness :
    (renderIssue oddSeverityIssue).1 = infoStyle
    ∧ (renderIssue oddCategoryIssue).2 = oddCategoryIssue.category :=
  ⟨(render_issue_total_fallback oddSeverityIssue).1 (by decide),
    (render_issue_total_fallback oddCategoryIssue).2 (by decide)⟩

/-- A concrete PRAnalysis value held in state when a review starts. -/
def demoAnalysis : PRAnalysis :=
  { total_files := 3, reviewable_files := 2, chunks_needed := 1
    estimated_time := 30, skipped_files := ["a.lock"] }

/-- The ollama state with a present PR analysis. -/
def stateWithAnalysis : AppState := { stateOllama with prAnalysis := some demoAnalysis }

/-- C10 counterexample: starting a review via handleReview does not reset
prAnalysis to null — in a state holding an analysis, the state after the
synchronous prefix of handleReview still holds it. -/
theorem stale_state_reset_counterexample :
    ¬((handleReview stateWithAnalysis).1.prAnalysis = none) := by
  have h : (handleReview stateWithAnalysis).1.prAnalysis = some demoAnalysis := rfl
  rw [h]
  simp

/-- C10 (amended): handleSelectRepo and handleSelectPR reset review,
reviewMeta and prAnalysis to null; handleReview, whenever it actually
starts a review (issues a /review request), resets review and reviewMeta to
null but leaves prAnalysis unchanged, and changes neither the selected
repository nor the selected PR — so a rendered ReviewResult always belongs
to the current selection and the most recent review invocation. -/
theorem stale_state_reset (s : AppState) (repo : Repo) (pr : PRSummary)
    (h : ((handleReview s).2).isSome) :
    ((handleSelectRepo s repo).review = none
      ∧ (handleSelectRepo s repo).reviewMeta = none
      ∧ (handleSelectRepo s repo).prAnalysis = none)
    ∧ ((handleSelectPR s pr).review = none
      ∧ (handleSelectPR s pr).reviewMeta = none
      ∧ (handleSelectPR s pr).prAnalysis = none)
    ∧ ((handleReview s).1.review = none
      ∧ (handleReview s).1.reviewMeta = none
      ∧ (handleReview s).1.prAnalysis = s.prAnalysis
      ∧ (handleReview s).1.selectedRepo = s.selectedRepo
      ∧ (handleReview s).1.selectedPR = s.selectedPR) := by
  refine ⟨⟨rfl, rfl, rfl⟩, ⟨rfl, rfl, rfl⟩, ?_⟩
  unfold handleReview at h ⊢
  rcases hsr : s.selectedRepo with _ | repo2
  · rw [hsr] at h
    simp at h
  rcases hsp : s.selectedPR with _ | pr2
  · rw [hsr, hsp] at h
    simp at h
  rw [hsp] at h
  rw [hsr] at h
  cases hcond : ((s.config.provider == "openai" || s.config.provider == "deepseek")
      && s.config.openaiKey == "")
  · simp [hcond, hsr, hsp]
  · simp [hcond] at h

theorem stale_state_reset_witness :
    ((handleSelectRepo stateWithAnalysis demoRepo).review = none
      ∧ (handleSelectRepo stateWithAnalysis demoRepo).reviewMeta = none
      ∧ (handleSelectRepo stateWithAnalysis demoRepo).prAnalysis = none)
    ∧ ((handleSelectPR stateWithAnalysis demoPR).review = none
      ∧ (handleSelectPR stateWithAnalysis demoPR).reviewMeta = none
      ∧ (handleSelectPR stateWithAnalysis demoPR).prAnalysis = none)
    ∧ ((handleReview stateWithAnalysis).1.review = none
      ∧ (handleReview stateWithAnalysis).1.reviewMeta = none
      ∧ (handleReview stateWithAnalysis).1.prAnalysis = stateWithAnalysis.prAnalysis
      ∧ (handleReview stateWithAnalysis).1.selectedRepo = stateWithAnalysis.selectedRepo
      ∧ (handleReview stateWithAnalysis).1.selectedPR = stateWithAnalysis.selectedPR) :=
  stale_state_reset stateWithAnalysis demoRepo demoPR (by rfl)
